import Mathlib

/-!
# pyvmdk: the Python binding module of libvmdk

A shallow embedding of `pyvmdk/pyvmdk.c`: the module method table and the three
module functions `pyvmdk_get_version`, `pyvmdk_check_file_signature` and
`pyvmdk_check_file_signature_file_object`.

The functions are glue around calls into CPython, libvmdk, libbfio and the
other pyvmdk files.  Each such collaborator is a field of `Env` (what the call
returns) and each call is recorded as an `Event`, so that a run of a module
function is a returned value together with the ordered trace of the calls it
made.
-/

namespace Pyvmdk

/-! ## Python values and C values -/

/-- The Python objects a caller can pass: a byte string, `None`, or any other
object (identified by a number). -/
inductive PyObject where
  | str (bytes : List Nat)
  | none
  | object (id : Nat)
  deriving DecidableEq, Repr

/-- The exception types that occur in the module. -/
inductive PyExc where
  | IOError
  | MemoryError
  | TypeError
  | RuntimeError
  deriving DecidableEq, Repr

/-- What a module function returns: `NULL`, or one of the two boolean
singletons. -/
inductive PyResult where
  | NULL
  | Py_True
  | Py_False
  deriving DecidableEq, Repr

/-- The value stored in a C output variable of `PyArg_ParseTupleAndKeywords`:
a `const char *` for the unit `s`, a `PyObject *` for the unit `O`. -/
inductive CValue where
  | char_ptr (s : List Nat)
  | object (o : PyObject)
  deriving DecidableEq, Repr

/-! ## `PyArg_ParseTupleAndKeywords` (CPython)

A model of the CPython argument parser for the format strings this module
uses: the units `s` and `O`, and the marker `|` after which the remaining
arguments are optional and their C variables are left untouched when the
argument is not given. -/

/-- The format units the module uses. -/
inductive FormatUnit where
  | s
  | O
  deriving DecidableEq, Repr

/-- Reads a format string: the units in order, and `min`, the number of units
that stand before the `|` marker (`none` when there is no marker). A character
that is no known unit makes the format invalid. -/
def parseFormat : List Char → List FormatUnit → Option Nat → Option (List FormatUnit × Option Nat)
  | [], units, min => some (units, min)
  | c :: rest, units, min =>
    if c = '|' then parseFormat rest units (some units.length)
    else if c = 's' then parseFormat rest (units ++ [FormatUnit.s]) min
    else if c = 'O' then parseFormat rest (units ++ [FormatUnit.O]) min
    else Option.none

/-- Converts one Python argument for one format unit. The unit `s` takes a
string without embedded null bytes; the unit `O` takes any object. -/
def convertitem : FormatUnit → PyObject → Except PyExc CValue
  | FormatUnit.s, PyObject.str bytes =>
    if 0 ∈ bytes then Except.error PyExc.TypeError else Except.ok (CValue.char_ptr bytes)
  | FormatUnit.s, _ => Except.error PyExc.TypeError
  | FormatUnit.O, o => Except.ok (CValue.object o)

/-- The loop over the keyword list: entry `i` takes the keyword argument of
its name, else the positional argument `i`, else it is left as it was when
`min ≤ i` and is an error when `i < min`. -/
def parseEntries (arguments : List PyObject) (keywords : List (String × PyObject)) (min : Nat) :
    Nat → List FormatUnit → List String → List (Option CValue) →
    Except PyExc (List (Option CValue))
  | i, unit :: units, keyword :: kwlist, var :: vars =>
    match keywords.lookup keyword with
    | some current_arg =>
      if i < arguments.length then Except.error PyExc.TypeError
      else
        match convertitem unit current_arg with
        | Except.error e => Except.error e
        | Except.ok v =>
          match parseEntries arguments keywords min (i + 1) units kwlist vars with
          | Except.error e => Except.error e
          | Except.ok out => Except.ok (some v :: out)
    | Option.none =>
      match arguments.get? i with
      | some current_arg =>
        match convertitem unit current_arg with
        | Except.error e => Except.error e
        | Except.ok v =>
          match parseEntries arguments keywords min (i + 1) units kwlist vars with
          | Except.error e => Except.error e
          | Except.ok out => Except.ok (some v :: out)
      | Option.none =>
        if i < min then Except.error PyExc.TypeError
        else
          match parseEntries arguments keywords min (i + 1) units kwlist vars with
          | Except.error e => Except.error e
          | Except.ok out => Except.ok (var :: out)
  | _, [], [], [] => Except.ok []
  | _, _, _, _ => Except.error PyExc.RuntimeError

/-- The argument parser. `vars` holds the initial contents of the C output
variables; the result holds their contents after a successful parse. A failed
parse (return value 0 in C) is the exception it has set. -/
def PyArg_ParseTupleAndKeywords (arguments : List PyObject) (keywords : List (String × PyObject))
    (format : String) (keyword_list : List String) (vars : List (Option CValue)) :
    Except PyExc (List (Option CValue)) :=
  match parseFormat format.data [] Option.none with
  | Option.none => Except.error PyExc.RuntimeError
  | some (units, min) =>
    if keyword_list.length < arguments.length + keywords.length then
      Except.error PyExc.TypeError
    else
      match parseEntries arguments keywords (min.getD keyword_list.length) 0 units keyword_list vars with
      | Except.error e => Except.error e
      | Except.ok out =>
        if keywords.all (fun kv => decide (kv.1 ∈ keyword_list)) then Except.ok out
        else Except.error PyExc.TypeError

/-- The `const char *` held by a parsed variable (`NULL` when it holds none). -/
def char_ptr_of : Option (Option CValue) → Option (List Nat)
  | some (some (CValue.char_ptr s)) => some s
  | _ => Option.none

/-- The `PyObject *` held by a parsed variable (`NULL` when it holds none). -/
def object_of : Option (Option CValue) → Option PyObject
  | some (some (CValue.object o)) => some o
  | _ => Option.none

/-! ## The collaborators and the trace of calls -/

/-- What the functions called by the module return. A file IO handle is
`none` for `NULL` and `some id` for a live handle. -/
structure Env where
  /-- The memory at the pointer `libvmdk_get_version` returns. -/
  libvmdk_get_version : List Nat
  /-- The object `PyUnicode_DecodeUTF8` builds from the bytes it is given
  (`none` for `NULL`). -/
  decode_utf8 : List Nat → Option String → Option PyObject
  /-- The return value of `libvmdk_check_file_signature` for a filename. -/
  libvmdk_check_file_signature : Option (List Nat) → Int
  /-- The return value of `pyvmdk_file_object_initialize` for a file object,
  and the handle it has stored. -/
  pyvmdk_file_object_initialize : Option PyObject → Int × Option Nat
  /-- The return value of `libvmdk_check_file_signature_file_io_handle`. -/
  libvmdk_check_file_signature_file_io_handle : Option Nat → Int
  /-- The return value of `libbfio_handle_free` for a handle; the boolean
  argument tells whether an error pointer was passed. -/
  libbfio_handle_free_result : Option Nat → Bool → Int
  /-- Whether a failing `libbfio_handle_free` has still set the handle to
  `NULL`. -/
  libbfio_handle_free_clears : Option Nat → Bool → Bool

/-- One call made by a module function, with its arguments and result. -/
inductive Event where
  | arg_error (e : PyExc)
  | libvmdk_check_file_signature (filename : Option (List Nat)) (result : Int)
  | pyvmdk_file_object_initialize (file_object : Option PyObject) (result : Int)
      (file_io_handle : Option Nat)
  | libvmdk_check_file_signature_file_io_handle (file_io_handle : Option Nat) (result : Int)
  | libbfio_handle_free (file_io_handle : Option Nat) (error_given : Bool) (result : Int)
  | pyvmdk_error_raise (e : PyExc) (message : String)
  | libcerror_error_free
  deriving DecidableEq, Repr

/-- A finished run of a module function. -/
structure Outcome where
  ret : PyResult
  trace : List Event
  deriving DecidableEq, Repr

/-- Modelled from the spec: `pyvmdk_error_raise` (pyvmdk_error.c is not under
src/) raises the exception type it is passed. The exceptions raised during a
run, in order: the one a failed argument parse has set, and the ones passed to
`pyvmdk_error_raise`. -/
def raised : List Event → List PyExc
  | [] => []
  | Event.arg_error e :: rest => e :: raised rest
  | Event.pyvmdk_error_raise e _ :: rest => e :: raised rest
  | _ :: rest => raised rest

/-! ## `pyvmdk_check_file_signature` -/

/-- The function `pyvmdk_check_file_signature` of pyvmdk.c. -/
def pyvmdk_check_file_signature (env : Env) ( _self : Option PyObject)
    (arguments : List PyObject) (keywords : List (String × PyObject)) : Outcome :=
  match PyArg_ParseTupleAndKeywords arguments keywords "|s" ["filename"] [Option.none] with
  | Except.error e => ⟨PyResult.NULL, [Event.arg_error e]⟩
  | Except.ok vars =>
    let filename := char_ptr_of vars.head?
    let result := env.libvmdk_check_file_signature filename
    let trace := [Event.libvmdk_check_file_signature filename result]
    if result = -1 then
      ⟨PyResult.NULL, trace ++
        [Event.pyvmdk_error_raise PyExc.IOError
           "pyvmdk_check_file_signature: unable to check file signature.",
         Event.libcerror_error_free]⟩
    else if result ≠ 0 then ⟨PyResult.Py_True, trace⟩
    else ⟨PyResult.Py_False, trace⟩

/-! ## `pyvmdk_check_file_signature_file_object` -/

/-- Modelled from the spec: `libbfio_handle_free` (libbfio is not under src/).
It is called on the address of the handle: when it succeeds (returns 1) the
handle is set to `NULL`; when it fails the collaborator decides whether the
handle is still live. Returns the result and the handle afterwards. -/
def libbfio_handle_free (env : Env) (file_io_handle : Option Nat) (error_given : Bool) :
    Int × Option Nat :=
  let result := env.libbfio_handle_free_result file_io_handle error_given
  if result = 1 then (result, Option.none)
  else if env.libbfio_handle_free_clears file_io_handle error_given then (result, Option.none)
  else (result, file_io_handle)

/-- The label `on_error` of `pyvmdk_check_file_signature_file_object`: a handle
that is not `NULL` is freed (no error pointer is passed, the result is
ignored), and `NULL` is returned. -/
def on_error (env : Env) (file_io_handle : Option Nat) (trace : List Event) : Outcome :=
  if file_io_handle ≠ Option.none then
    let freed := libbfio_handle_free env file_io_handle false
    ⟨PyResult.NULL, trace ++ [Event.libbfio_handle_free file_io_handle false freed.1]⟩
  else ⟨PyResult.NULL, trace⟩

/-- The function `pyvmdk_check_file_signature_file_object` of pyvmdk.c. -/
def pyvmdk_check_file_signature_file_object (env : Env) ( _self : Option PyObject)
    (arguments : List PyObject) (keywords : List (String × PyObject)) : Outcome :=
  match PyArg_ParseTupleAndKeywords arguments keywords "|O" ["file_object"] [Option.none] with
  | Except.error e => ⟨PyResult.NULL, [Event.arg_error e]⟩
  | Except.ok vars =>
    let file_object := object_of vars.head?
    let initialized := env.pyvmdk_file_object_initialize file_object
    let file_io_handle := initialized.2
    let trace := [Event.pyvmdk_file_object_initialize file_object initialized.1 file_io_handle]
    if initialized.1 ≠ 1 then
      on_error env file_io_handle (trace ++
        [Event.pyvmdk_error_raise PyExc.MemoryError
           "pyvmdk_check_file_signature_file_object: unable to initialize file IO handle.",
         Event.libcerror_error_free])
    else
      let result := env.libvmdk_check_file_signature_file_io_handle file_io_handle
      let trace := trace ++ [Event.libvmdk_check_file_signature_file_io_handle file_io_handle result]
      if result = -1 then
        on_error env file_io_handle (trace ++
          [Event.pyvmdk_error_raise PyExc.IOError
             "pyvmdk_check_file_signature_file_object: unable to check file signature.",
           Event.libcerror_error_free])
      else
        let freed := libbfio_handle_free env file_io_handle true
        let trace := trace ++ [Event.libbfio_handle_free file_io_handle true freed.1]
        if freed.1 ≠ 1 then
          on_error env freed.2 (trace ++
            [Event.pyvmdk_error_raise PyExc.MemoryError
               "pyvmdk_check_file_signature_file_object: unable to free file IO handle.",
             Event.libcerror_error_free])
        else if result ≠ 0 then ⟨PyResult.Py_True, trace⟩
        else ⟨PyResult.Py_False, trace⟩

/-! ## `pyvmdk_get_version` -/

/-- Modelled from the spec: `libcstring_narrow_string_length` (libcstring is not
under src/), the narrow string length: the number of bytes before the first
end-of-string character of the memory at the pointer. -/
def libcstring_narrow_string_length : List Nat → Nat
  | [] => 0
  | c :: rest => if c = 0 then 0 else libcstring_narrow_string_length rest + 1

/-- The cast `(Py_ssize_t)` of a `size_t` (64 bit). -/
def to_Py_ssize_t (n : Nat) : Int :=
  if n % 2 ^ 64 < 2 ^ 63 then ((n % 2 ^ 64 : Nat) : Int) else ((n % 2 ^ 64 : Nat) : Int) - 2 ^ 64

/-- The CPython function `PyUnicode_DecodeUTF8 (s, size, errors)`: decodes the
first `size` bytes at `s`. -/
def PyUnicode_DecodeUTF8 (env : Env) (s : List Nat) (size : Int) (errors : Option String) :
    Option PyObject :=
  env.decode_utf8 (s.take size.toNat) errors

/-- The function `pyvmdk_get_version` of pyvmdk.c. -/
def pyvmdk_get_version (env : Env) ( _self : Option PyObject) ( _arguments : Option PyObject) :
    Option PyObject :=
  let errors : Option String := Option.none
  let version_string := env.libvmdk_get_version
  let version_string_length := libcstring_narrow_string_length version_string
  PyUnicode_DecodeUTF8 env version_string (to_Py_ssize_t version_string_length) errors

/-! ## The module method table -/

/-- One entry of a method table (`PyMethodDef`); `none` is `NULL`, and
`ml_meth` names the C function pointed to. -/
structure PyMethodDef where
  ml_name : Option String
  ml_meth : Option String
  ml_flags : Nat
  ml_doc : Option String
  deriving DecidableEq, Repr

/-- The flag `METH_VARARGS`. -/
def METH_VARARGS : Nat := 1

/-- The flag `METH_KEYWORDS`. -/
def METH_KEYWORDS : Nat := 2

/-- The flag `METH_NOARGS`. -/
def METH_NOARGS : Nat := 4

/-- The table `pyvmdk_module_methods` of pyvmdk.c. -/
def pyvmdk_module_methods : List PyMethodDef :=
  [ ⟨some "get_version", some "pyvmdk_get_version", METH_NOARGS,
      some "get_version() -> String\n\nRetrieves the version."⟩,
    ⟨some "check_file_signature", some "pyvmdk_check_file_signature",
      METH_VARARGS ||| METH_KEYWORDS,
      some "check_file_signature(filename) -> Boolean\n\nChecks if a file has a VMware Virtual Disk (VMDK) file signature."⟩,
    ⟨some "check_file_signature_file_object", some "pyvmdk_check_file_signature_file_object",
      METH_VARARGS ||| METH_KEYWORDS,
      some "check_file_signature(file_object) -> Boolean\n\nChecks if a file has a VMware Virtual Disk (VMDK) file signature using a file-like object."⟩,
    ⟨some "open", some "pyvmdk_handle_new_open", METH_VARARGS ||| METH_KEYWORDS,
      some "open(filename, mode='r') -> Object\n\nOpens a VMDK image handle using the descriptor file."⟩,
    ⟨some "open_file_object", some "pyvmdk_handle_new_open_file_object",
      METH_VARARGS ||| METH_KEYWORDS,
      some "open(file_object, mode='r') -> Object\n\nOpens a VMDK image handle using a file-like object of the descriptor file."⟩,
    ⟨Option.none, Option.none, 0, Option.none⟩ ]


/-! ## Observations on a trace -/

/-- The outcome stated for a library result `r` of the signature check: `NULL`
with an `IOError` for -1, `Py_False` for 0, `Py_True` for any other value. -/
def signature_outcome (r : Int) : PyResult × List PyExc :=
  if r = -1 then (PyResult.NULL, [PyExc.IOError])
  else if r = 0 then (PyResult.Py_False, [])
  else (PyResult.Py_True, [])

/-- The live handles that calls of `pyvmdk_file_object_initialize` have
produced. -/
def initialized_handles : List Event → List Nat
  | [] => []
  | Event.pyvmdk_file_object_initialize _ _ (some handle) :: rest =>
    handle :: initialized_handles rest
  | _ :: rest => initialized_handles rest

/-- The handles that `libbfio_handle_free` has been called on. -/
def freed_handles : List Event → List (Option Nat)
  | [] => []
  | Event.libbfio_handle_free handle _ _ :: rest => handle :: freed_handles rest
  | _ :: rest => freed_handles rest

/-- No call of `libbfio_handle_free` that succeeds (returns 1) on a handle is
followed by another call on that handle. -/
def no_free_after_success : List Event → Bool
  | [] => true
  | Event.libbfio_handle_free handle _ result :: rest =>
    (decide (result ≠ 1) || decide (handle ∉ freed_handles rest)) && no_free_after_success rest
  | _ :: rest => no_free_after_success rest

/-- An environment for examples: the version string is "20140416", a byte
string is decoded to itself, every call succeeds, and the signature checks
answer `check`. -/
def example_env (check : Int) (free_result : Int) : Env :=
  ⟨[50, 48, 49, 52, 48, 52, 49, 54, 0], fun bytes _ => some (PyObject.str bytes),
   fun _ => check, fun _ => (1, some 7), fun _ => check, fun _ _ => free_result,
   fun _ _ => false⟩

end Pyvmdk

/-! ## The descriptor-and-extent engine behind `open`

The functions behind the table entries `open` and `open_file_object`
(`pyvmdk_handle_new_open`, and the library they call) are not in pyvmdk.c.
This section models them from the specification: the descriptor parser, the
extent resolver, the composition of the extents into one disk, and the handle.
-/

namespace Vmdk

/-- Modelled from the spec: the size of a sector in bytes. -/
def sector_size : Nat := 512

/-- Modelled from the spec: the errors of the engine. -/
inductive Error where
  | MalformedHeader
  | UnknownExtentType
  | BackingFileNotFound
  | BackingFileTooSmall
  | UnsupportedExtentType
  | FormatError
  deriving DecidableEq, Repr

/-- Modelled from the spec: the adapter type of a disk manifest. -/
inductive AdapterType where
  | IDE
  | SCSI
  | buslogic
  | lsilogic
  deriving DecidableEq, Repr

/-- Modelled from the spec: the access mode of an extent. -/
inductive AccessMode where
  | read_only
  | read_write
  | no_access
  deriving DecidableEq, Repr

/-- Modelled from the spec: the extent type. -/
inductive ExtentType where
  | FLAT
  | SPARSE
  | ZERO
  | VMFS
  | COMPRESSED
  deriving DecidableEq, Repr

/-- Modelled from the spec: one extent specification of the descriptor (access
mode, size in sectors, type, backing file name, start offset). -/
structure ExtentSpec where
  access_mode : AccessMode
  sector_count : Nat
  extent_type : ExtentType
  backing_file : List Char
  start_offset : Option Nat
  deriving DecidableEq, Repr

/-- Modelled from the spec: the disk manifest, the parsed descriptor. -/
structure DiskManifest where
  version : List Char
  cid : List Char
  adapter_type : Option AdapterType
  extents : List ExtentSpec
  deriving DecidableEq, Repr

/-! ### Descriptor parser -/

/-- Modelled from the spec: whether a character is blank inside a line. -/
def is_blank (c : Char) : Bool :=
  c = ' ' || c = '\t' || c = '\r'

/-- Modelled from the spec: splits a text into its lines. -/
def split_lines : List Char → List (List Char)
  | [] => [[]]
  | c :: rest =>
    match split_lines rest with
    | [] => if c = '\n' then [[], []] else [[c]]
    | line :: lines => if c = '\n' then [] :: line :: lines else (c :: line) :: lines

/-- Modelled from the spec: removes the blanks at both ends of a line. -/
def trim (line : List Char) : List Char :=
  ((line.dropWhile is_blank).reverse.dropWhile is_blank).reverse

/-- Modelled from the spec: splits a record into its columns: runs of characters separated by blanks,
where a quoted part may hold blanks. -/
def columns : List Char → List Char → Bool → List (List Char)
  | [], current, _ => if current = [] then [] else [current.reverse]
  | c :: rest, current, quoted =>
    if c = '"' then columns rest (c :: current) (!quoted)
    else if !quoted && is_blank c then
      if current = [] then columns rest [] false
      else current.reverse :: columns rest [] false
    else columns rest (c :: current) quoted

/-- Modelled from the spec: reads a decimal number. -/
def read_number : List Char → Nat → Option Nat
  | [], n => some n
  | c :: rest, n =>
    if '0' ≤ c ∧ c ≤ '9' then read_number rest (n * 10 + (c.toNat - '0'.toNat)) else none

/-- Modelled from the spec: reads a number column, which must not be empty. -/
def number_column (column : List Char) : Option Nat :=
  if column = [] then none else read_number column 0

/-- Modelled from the spec: removes the quotes around a value; `none` when it is not quoted. -/
def unquote (value : List Char) : Option (List Char) :=
  match value with
  | '"' :: rest =>
    match rest.reverse with
    | '"' :: inner => some inner.reverse
    | _ => none
  | _ => none

/-- Modelled from the spec: the access mode named by the first column of a record. -/
def access_mode_of (column : List Char) : Option AccessMode :=
  if column = "RW".data then some AccessMode.read_write
  else if column = "RDONLY".data then some AccessMode.read_only
  else if column = "NOACCESS".data then some AccessMode.no_access
  else none

/-- Modelled from the spec: the extent type named by the third column of a record. -/
def extent_type_of (column : List Char) : Option ExtentType :=
  if column = "FLAT".data then some ExtentType.FLAT
  else if column = "SPARSE".data then some ExtentType.SPARSE
  else if column = "ZERO".data then some ExtentType.ZERO
  else if column = "VMFS".data then some ExtentType.VMFS
  else if column = "COMPRESSED".data then some ExtentType.COMPRESSED
  else none

/-- Modelled from the spec: reads one extent record: mode, sector count, type, quoted file name and an
optional start offset. The sector count must be positive. -/
def parse_extent (mode : AccessMode) (record : List (List Char)) : Except Error ExtentSpec :=
  match record with
  | _ :: count :: type :: rest =>
    match number_column count with
    | none => Except.error Error.MalformedHeader
    | some sector_count =>
      if sector_count = 0 then Except.error Error.MalformedHeader
      else
        match extent_type_of type with
        | none => Except.error Error.UnknownExtentType
        | some extent_type =>
          match rest with
          | [] =>
            if extent_type = ExtentType.ZERO then
              Except.ok ⟨mode, sector_count, extent_type, [], none⟩
            else Except.error Error.MalformedHeader
          | [file] =>
            match unquote file with
            | none => Except.error Error.MalformedHeader
            | some name => Except.ok ⟨mode, sector_count, extent_type, name, none⟩
          | [file, offset] =>
            match unquote file, number_column offset with
            | some name, some start => Except.ok ⟨mode, sector_count, extent_type, name, some start⟩
            | _, _ => Except.error Error.MalformedHeader
          | _ => Except.error Error.MalformedHeader
  | _ => Except.error Error.MalformedHeader

/-- Modelled from the spec: splits a `key = value` line; the key is put in lower case. -/
def key_value (line : List Char) : Option (List Char × List Char) :=
  if '=' ∈ line then
    some (trim ((line.takeWhile (fun c => c != '=')).map Char.toLower),
          trim ((line.dropWhile (fun c => c != '=')).drop 1))
  else none

/-- Modelled from the spec: what the lines read so far have given. -/
structure ParseState where
  pairs : List (List Char × List Char)
  extents : List ExtentSpec
  deriving DecidableEq, Repr

/-- Modelled from the spec: reads the lines in order: blank lines and comment lines are skipped, a line
that starts with an access mode is an extent record, any other line must be a
`key = value` pair. -/
def parse_lines : List (List Char) → ParseState → Except Error ParseState
  | [], state => Except.ok state
  | raw :: rest, state =>
    let line := trim raw
    if line = [] then parse_lines rest state
    else if line.head? = some '#' then parse_lines rest state
    else
      let record := columns line [] false
      match record.head?.bind access_mode_of with
      | some mode =>
        match parse_extent mode record with
        | Except.error e => Except.error e
        | Except.ok extent => parse_lines rest ⟨state.pairs, state.extents ++ [extent]⟩
      | none =>
        match key_value line with
        | none => Except.error Error.MalformedHeader
        | some pair => parse_lines rest ⟨state.pairs ++ [pair], state.extents⟩

/-- Modelled from the spec: the adapter type named by a value of the key `ddb.adaptertype`. -/
def adapter_type_of (value : List Char) : Option AdapterType :=
  let name := ((unquote value).getD value).map Char.toLower
  if name = "ide".data then some AdapterType.IDE
  else if name = "scsi".data then some AdapterType.SCSI
  else if name = "buslogic".data then some AdapterType.buslogic
  else if name = "lsilogic".data then some AdapterType.lsilogic
  else none

/-- Modelled from the spec: `parse(bytes) -> DiskManifest | ParseError`. The
keys `version` and `CID` are required. -/
def parse (descriptor : String) : Except Error DiskManifest :=
  match parse_lines (split_lines descriptor.data) ⟨[], []⟩ with
  | Except.error e => Except.error e
  | Except.ok state =>
    match state.pairs.lookup "version".data, state.pairs.lookup "cid".data with
    | some version, some cid =>
      Except.ok ⟨version, cid,
        (state.pairs.lookup "ddb.adaptertype".data).bind adapter_type_of, state.extents⟩
    | _, _ => Except.error Error.MalformedHeader

/-! ### Extent resolver, composer and handle -/

/-- Modelled from the spec: the byte source capability, `size()` and
`read(offset, length)`. -/
structure ByteSource where
  size : Nat
  read : Nat → Nat → List Nat

/-- Modelled from the spec: the index of a sparse extent (header fields and
grain directory). -/
structure SparseIndex where
  grain_size : Nat
  grain_directory_offset : Nat
  entries_per_table : Nat
  compressed : Bool
  grain_directory : List Nat
  deriving DecidableEq, Repr

/-- Modelled from the spec: a resolved extent, its specification paired with
the open byte source and, if sparse, the sparse index; `start_sector` is the
offset assigned to it in the composed disk. -/
structure OpenExtent where
  spec : ExtentSpec
  source : Option ByteSource
  sparse_index : Option SparseIndex
  start_sector : Nat

/-- Modelled from the spec: the collaborators of the resolver: the byte source factory, and the
construction of a sparse index from a byte source. -/
structure Sources where
  byte_source_factory : List Char → Option ByteSource
  initialize_sparse : ByteSource → Except Error SparseIndex

/-- Modelled from the spec: the backing path of an extent: an absolute path is used verbatim, a
relative path is joined to the base directory. -/
def backing_path (base_directory : List Char) (file : List Char) : List Char :=
  if file.head? = some '/' then file else base_directory ++ '/' :: file

/-- Modelled from the spec: resolves one extent at a given start sector: a ZERO extent needs no backing
file; a FLAT or SPARSE extent opens its backing byte source, whose size must
be at least the sector count times 512; a SPARSE extent also builds its
index. Any other type is unsupported. -/
def resolve_extent (sources : Sources) (base_directory : List Char) (spec : ExtentSpec)
    (start_sector : Nat) : Except Error OpenExtent :=
  match spec.extent_type with
  | ExtentType.ZERO => Except.ok ⟨spec, none, none, start_sector⟩
  | ExtentType.FLAT =>
    match sources.byte_source_factory (backing_path base_directory spec.backing_file) with
    | none => Except.error Error.BackingFileNotFound
    | some source =>
      if source.size < spec.sector_count * sector_size then Except.error Error.BackingFileTooSmall
      else Except.ok ⟨spec, some source, none, start_sector⟩
  | ExtentType.SPARSE =>
    match sources.byte_source_factory (backing_path base_directory spec.backing_file) with
    | none => Except.error Error.BackingFileNotFound
    | some source =>
      if source.size < spec.sector_count * sector_size then Except.error Error.BackingFileTooSmall
      else
        match sources.initialize_sparse source with
        | Except.error e => Except.error e
        | Except.ok index => Except.ok ⟨spec, some source, some index, start_sector⟩
  | _ => Except.error Error.UnsupportedExtentType

/-- Modelled from the spec: resolves the extents in manifest order; the start sector of each is the
running sum of the sector counts before it. -/
def resolve_extents (sources : Sources) (base_directory : List Char) :
    List ExtentSpec → Nat → Except Error (List OpenExtent)
  | [], _ => Except.ok []
  | spec :: rest, start_sector =>
    match resolve_extent sources base_directory spec start_sector with
    | Except.error e => Except.error e
    | Except.ok extent =>
      match resolve_extents sources base_directory rest (start_sector + spec.sector_count) with
      | Except.error e => Except.error e
      | Except.ok extents => Except.ok (extent :: extents)

/-- Modelled from the spec: `resolve(manifest, base_directory,
byte_source_factory) -> sequence of OpenExtent | ResolveError`. -/
def resolve (manifest : DiskManifest) (base_directory : List Char) (sources : Sources) :
    Except Error (List OpenExtent) :=
  resolve_extents sources base_directory manifest.extents 0

/-- Modelled from the spec: the handle, the composed-disk view: manifest,
ordered open extents, current logical read offset and total logical size. -/
structure Handle where
  manifest : DiskManifest
  extents : List OpenExtent
  offset : Nat
  total_size : Nat

/-- Modelled from the spec: the composition of the open extents into one disk.
The total logical size is the sum of the extent sector counts times the sector
size; the cursor starts at 0. -/
def compose (manifest : DiskManifest) (extents : List OpenExtent) : Handle :=
  ⟨manifest, extents, 0, (extents.map (fun extent => extent.spec.sector_count)).sum * sector_size⟩

/-- Modelled from the spec: `open(descriptor_source, mode)`, descriptor parse,
then extent resolution, then composition. -/
def handle_open (descriptor : String) (base_directory : List Char) (sources : Sources) :
    Except Error Handle :=
  match parse descriptor with
  | Except.error e => Except.error e
  | Except.ok manifest =>
    match resolve manifest base_directory sources with
    | Except.error e => Except.error e
    | Except.ok extents => Except.ok (compose manifest extents)

/-- Modelled from the spec: `Handle.get_media_size() -> u64`. -/
def get_media_size (handle : Handle) : Nat :=
  handle.total_size

/-- Modelled from the spec: the descriptor of the scenario: a FLAT extent of 2048 sectors at offset 0,
then a SPARSE extent of 4096 sectors at offset 2048. -/
def two_extent_descriptor : String :=
  "# Disk DescriptorFile\nversion=1\nCID=fffffffe\nparentCID=ffffffff\n\n# Extent description\nRW 2048 FLAT \"disk-flat.vmdk\" 0\nRW 4096 SPARSE \"disk-sparse.vmdk\" 2048\n\n# The Disk Data Base\nddb.adapterType = \"ide\"\n"

/-- Modelled from the spec: backing sources for the scenario: every file exists, is 4 MiB of zero
bytes, and every sparse header is accepted. -/
def two_extent_sources : Sources :=
  ⟨fun _ => some ⟨4194304, fun _ length => List.replicate length 0⟩,
   fun _ => Except.ok ⟨128, 0, 512, false, []⟩⟩

end Vmdk

/-! ## Theorems about pyvmdk.c -/

namespace Pyvmdk

/-- C1: after a successful argument parse, `pyvmdk_check_file_signature`
returns `NULL` with an `IOError` raised exactly when the library result `r` is
-1; otherwise nothing is raised and it returns `Py_False` for `r = 0` and
`Py_True` for any other `r`. The returned value and the raised exceptions are
`signature_outcome r`, a function of `r` alone. -/
theorem check_file_signature_outcome (env : Env) (self : Option PyObject)
    (arguments : List PyObject) (keywords : List (String × PyObject))
    (vars : List (Option CValue))
    (hparse : PyArg_ParseTupleAndKeywords arguments keywords "|s" ["filename"] [Option.none] =
      Except.ok vars) :
    let r := env.libvmdk_check_file_signature (char_ptr_of vars.head?)
    let out := pyvmdk_check_file_signature env self arguments keywords
    ((out.ret = PyResult.NULL ∧ raised out.trace = [PyExc.IOError]) ↔ r = -1) ∧
    (r ≠ -1 → raised out.trace = []) ∧
    (r = 0 → out.ret = PyResult.Py_False) ∧
    (r ≠ -1 → r ≠ 0 → out.ret = PyResult.Py_True) ∧
    (out.ret, raised out.trace) = signature_outcome r := by
  intro r out
  have hout : out = pyvmdk_check_file_signature env self arguments keywords := rfl
  simp only [pyvmdk_check_file_signature, hparse] at hout
  by_cases h1 : r = -1
  · have h1' : env.libvmdk_check_file_signature (char_ptr_of vars.head?) = -1 := h1
    simp [h1'] at hout
    simp [hout, raised, signature_outcome, h1]
  · have h1' : ¬ env.libvmdk_check_file_signature (char_ptr_of vars.head?) = -1 := h1
    by_cases h0 : r = 0
    · have h0' : env.libvmdk_check_file_signature (char_ptr_of vars.head?) = 0 := h0
      simp [h0'] at hout
      simp [hout, raised, signature_outcome, h0]
    · have h0' : ¬ env.libvmdk_check_file_signature (char_ptr_of vars.head?) = 0 := h0
      simp [h1', h0'] at hout
      simp [hout, raised, signature_outcome, h1, h0]

/-- C1 at a concrete call: `check_file_signature("a")` with a library that
answers 1. -/
theorem check_file_signature_outcome_witness :
    PyArg_ParseTupleAndKeywords [PyObject.str [97]] [] "|s" ["filename"] [Option.none] =
      Except.ok [some (CValue.char_ptr [97])] ∧
    (pyvmdk_check_file_signature (example_env 1 1) Option.none [PyObject.str [97]] []).ret =
      PyResult.Py_True :=
  ⟨rfl,
   by
    have h := check_file_signature_outcome (example_env 1 1) Option.none [PyObject.str [97]] []
      [some (CValue.char_ptr [97])] rfl
    exact h.2.2.2.1 (by decide) (by decide)⟩

/-- C2: in both signature functions `NULL` is returned exactly on the runs that
raise an exception (a failed argument parse or a `pyvmdk_error_raise`), and a
run that returns `Py_True` or `Py_False` raises none. In the file-object
variant a signature result of 0 or 1 followed by a failing
`libbfio_handle_free` gives `NULL` with a `MemoryError`, not the boolean. -/
theorem null_iff_exception_raised (env : Env) (self : Option PyObject)
    (arguments : List PyObject) (keywords : List (String × PyObject)) :
    let a := pyvmdk_check_file_signature env self arguments keywords
    let b := pyvmdk_check_file_signature_file_object env self arguments keywords
    (a.ret = PyResult.NULL ↔ raised a.trace ≠ []) ∧
    (b.ret = PyResult.NULL ↔ raised b.trace ≠ []) ∧
    ((a.ret = PyResult.Py_True ∨ a.ret = PyResult.Py_False) → raised a.trace = []) ∧
    ((b.ret = PyResult.Py_True ∨ b.ret = PyResult.Py_False) → raised b.trace = []) ∧
    (∀ vars, PyArg_ParseTupleAndKeywords arguments keywords "|O" ["file_object"] [Option.none] =
        Except.ok vars →
      (env.pyvmdk_file_object_initialize (object_of vars.head?)).1 = 1 →
      (env.libvmdk_check_file_signature_file_io_handle
          (env.pyvmdk_file_object_initialize (object_of vars.head?)).2 = 0 ∨
        env.libvmdk_check_file_signature_file_io_handle
          (env.pyvmdk_file_object_initialize (object_of vars.head?)).2 = 1) →
      env.libbfio_handle_free_result
          (env.pyvmdk_file_object_initialize (object_of vars.head?)).2 true ≠ 1 →
      b.ret = PyResult.NULL ∧ raised b.trace = [PyExc.MemoryError]) := by
  intro a b
  have hA : (a.ret = PyResult.NULL ↔ raised a.trace ≠ []) := by
    rcases hp : PyArg_ParseTupleAndKeywords arguments keywords "|s" ["filename"] [Option.none]
      with e | vars
    · simp only [a, pyvmdk_check_file_signature, hp]
      simp [raised]
    · simp only [a, pyvmdk_check_file_signature, hp]
      split_ifs <;> simp [raised]
  have hB : (b.ret = PyResult.NULL ↔ raised b.trace ≠ []) := by
    rcases hp : PyArg_ParseTupleAndKeywords arguments keywords "|O" ["file_object"] [Option.none]
      with e | vars
    · simp only [b, pyvmdk_check_file_signature_file_object, hp]
      simp [raised]
    · simp only [b, pyvmdk_check_file_signature_file_object, hp, on_error, libbfio_handle_free]
      split_ifs <;> simp [raised]
  have key : ∀ o : Outcome, (o.ret = PyResult.NULL ↔ raised o.trace ≠ []) →
      (o.ret = PyResult.Py_True ∨ o.ret = PyResult.Py_False) → raised o.trace = [] := by
    intro o ho h
    by_contra hne
    have hnull := ho.mpr hne
    rcases h with h | h <;> rw [hnull] at h <;> cases h
  refine ⟨hA, hB, key a hA, key b hB, ?_⟩
  · intro vars hparse hinit hcheck hfree
    clear hA hB key
    simp only [b, pyvmdk_check_file_signature_file_object, hparse, on_error, libbfio_handle_free]
    clear a b
    rcases hx : env.pyvmdk_file_object_initialize (object_of vars.head?) with ⟨rc, handle⟩
    rw [hx] at hinit hcheck hfree
    simp only at hinit hcheck hfree
    subst hinit
    dsimp only
    generalize env.libbfio_handle_free_result handle false = f2
    generalize env.libbfio_handle_free_clears handle false = c2
    generalize env.libbfio_handle_free_clears handle true = c1
    generalize env.libbfio_handle_free_result handle true = f1 at hfree ⊢
    generalize env.libvmdk_check_file_signature_file_io_handle handle = r at hcheck ⊢
    generalize object_of vars.head? = fo
    clear hx hparse
    rcases hcheck with hc | hc <;> subst hc <;> cases c1 <;> cases handle <;>
      simp [hfree, raised]

/-- C2 at a concrete call: the library answers 1 and `libbfio_handle_free`
fails with -1; the call returns `NULL` with a `MemoryError`. -/
theorem null_iff_exception_raised_witness :
    (pyvmdk_check_file_signature_file_object (example_env 1 (-1)) Option.none
        [PyObject.none] []).ret = PyResult.NULL ∧
    raised (pyvmdk_check_file_signature_file_object (example_env 1 (-1)) Option.none
        [PyObject.none] []).trace = [PyExc.MemoryError] :=
  (null_iff_exception_raised (example_env 1 (-1)) Option.none [PyObject.none] []).2.2.2.2
    [some (CValue.object PyObject.none)] rfl rfl (Or.inr rfl) (by decide)

/-- C3: after a successful argument parse,
`pyvmdk_check_file_signature_file_object` turns each failing step into one fixed
exception, in order: a `pyvmdk_file_object_initialize` result other than 1
raises `MemoryError` and the library check is never called; else a library
result of -1 raises `IOError`; else a `libbfio_handle_free` result other than
1 raises `MemoryError`; a boolean is returned exactly when all three steps
succeed, and it is `Py_True` exactly when the library result is not 0. -/
theorem file_object_error_translation (env : Env) (self : Option PyObject)
    (arguments : List PyObject) (keywords : List (String × PyObject))
    (vars : List (Option CValue))
    (hparse : PyArg_ParseTupleAndKeywords arguments keywords "|O" ["file_object"] [Option.none] =
      Except.ok vars) :
    let initialized := env.pyvmdk_file_object_initialize (object_of vars.head?)
    let result := env.libvmdk_check_file_signature_file_io_handle initialized.2
    let freed := env.libbfio_handle_free_result initialized.2 true
    let out := pyvmdk_check_file_signature_file_object env self arguments keywords
    (initialized.1 ≠ 1 →
      out.ret = PyResult.NULL ∧ raised out.trace = [PyExc.MemoryError] ∧
      ∀ handle r, Event.libvmdk_check_file_signature_file_io_handle handle r ∉ out.trace) ∧
    (initialized.1 = 1 → result = -1 →
      out.ret = PyResult.NULL ∧ raised out.trace = [PyExc.IOError] ∧
      ∀ r, Event.libbfio_handle_free initialized.2 true r ∉ out.trace) ∧
    (initialized.1 = 1 → result ≠ -1 → freed ≠ 1 →
      out.ret = PyResult.NULL ∧ raised out.trace = [PyExc.MemoryError]) ∧
    ((out.ret = PyResult.Py_True ∨ out.ret = PyResult.Py_False) ↔
      (initialized.1 = 1 ∧ result ≠ -1 ∧ freed = 1)) ∧
    (initialized.1 = 1 → result ≠ -1 → freed = 1 →
      raised out.trace = [] ∧ (out.ret = PyResult.Py_True ↔ result ≠ 0)) := by
  intro initialized result freed out
  simp only [out, result, freed, initialized, pyvmdk_check_file_signature_file_object, hparse,
    on_error, libbfio_handle_free]
  clear out result freed initialized
  rcases env.pyvmdk_file_object_initialize (object_of vars.head?) with ⟨rc, handle⟩
  dsimp only
  generalize env.libbfio_handle_free_result handle false = f2
  generalize env.libbfio_handle_free_clears handle false = c2
  generalize env.libbfio_handle_free_clears handle true = c1
  generalize env.libbfio_handle_free_result handle true = f1
  generalize env.libvmdk_check_file_signature_file_io_handle handle = r
  generalize object_of vars.head? = fo
  clear hparse
  by_cases hrc : rc = 1 <;> by_cases hr : r = -1 <;> by_cases hf : f1 = 1 <;>
    by_cases h0 : r = 0 <;> cases c1 <;> cases handle <;> simp [hrc, hr, hf, h0, raised]

/-- C3 at a concrete call: a file object `None`, every step succeeds and the
library answers 1. -/
theorem file_object_error_translation_witness :
    PyArg_ParseTupleAndKeywords [PyObject.none] [] "|O" ["file_object"] [Option.none] =
      Except.ok [some (CValue.object PyObject.none)] ∧
    (pyvmdk_check_file_signature_file_object (example_env 1 1) Option.none [PyObject.none] []).ret =
      PyResult.Py_True :=
  ⟨rfl,
   by
    have h := file_object_error_translation (example_env 1 1) Option.none [PyObject.none] []
      [some (CValue.object PyObject.none)] rfl
    exact (h.2.2.2.2 rfl (by decide) rfl).2.mpr (by decide)⟩

/-- C8: in `pyvmdk_check_file_signature_file_object`, every live handle that
`pyvmdk_file_object_initialize` produced has had `libbfio_handle_free` called
on it before the return; no successful `libbfio_handle_free` on a handle is
followed by another call on it; and the cleanup at `on_error` (the call without
an error pointer) is never made on `NULL`. -/
theorem file_object_handle_released (env : Env) (self : Option PyObject)
    (arguments : List PyObject) (keywords : List (String × PyObject)) :
    let out := pyvmdk_check_file_signature_file_object env self arguments keywords
    (∀ handle ∈ initialized_handles out.trace, some handle ∈ freed_handles out.trace) ∧
    no_free_after_success out.trace = true ∧
    ∀ r, Event.libbfio_handle_free Option.none false r ∉ out.trace := by
  intro out
  rcases hparse : PyArg_ParseTupleAndKeywords arguments keywords "|O" ["file_object"] [Option.none]
    with e | vars
  · simp only [out, pyvmdk_check_file_signature_file_object, hparse]
    simp [initialized_handles, freed_handles, no_free_after_success]
  · simp only [out, pyvmdk_check_file_signature_file_object, hparse, on_error,
      libbfio_handle_free]
    clear out
    rcases env.pyvmdk_file_object_initialize (object_of vars.head?) with ⟨rc, handle⟩
    dsimp only
    generalize env.libbfio_handle_free_result handle false = f2
    generalize env.libbfio_handle_free_clears handle false = c2
    generalize env.libbfio_handle_free_clears handle true = c1
    generalize env.libbfio_handle_free_result handle true = f1
    generalize env.libvmdk_check_file_signature_file_io_handle handle = r
    generalize object_of vars.head? = fo
    clear hparse
    by_cases hrc : rc = 1 <;> by_cases hr : r = -1 <;> by_cases hf : f1 = 1 <;>
      by_cases h0 : r = 0 <;> cases c1 <;> cases handle <;>
      simp [hrc, hr, hf, h0, initialized_handles, freed_handles, no_free_after_success]

/-- C4: a call that supplies no argument does not fail at argument parsing:
the format strings "|s" and "|O" make the argument optional, so the parse
succeeds and leaves the variable `NULL`, `libvmdk_check_file_signature` is
called with a `NULL` filename and `pyvmdk_file_object_initialize` with a `NULL`
file object. -/
theorem missing_argument_reaches_library (env : Env) :
    PyArg_ParseTupleAndKeywords [] [] "|s" ["filename"] [Option.none] =
      Except.ok [Option.none] ∧
    PyArg_ParseTupleAndKeywords [] [] "|O" ["file_object"] [Option.none] =
      Except.ok [Option.none] ∧
    (pyvmdk_check_file_signature env Option.none [] []).trace.head? =
      some (Event.libvmdk_check_file_signature Option.none
        (env.libvmdk_check_file_signature Option.none)) ∧
    (pyvmdk_check_file_signature_file_object env Option.none [] []).trace.head? =
      some (Event.pyvmdk_file_object_initialize Option.none
        (env.pyvmdk_file_object_initialize Option.none).1
        (env.pyvmdk_file_object_initialize Option.none).2) := by
  have hs : PyArg_ParseTupleAndKeywords [] [] "|s" ["filename"] [Option.none] =
      Except.ok [Option.none] := rfl
  have hO : PyArg_ParseTupleAndKeywords [] [] "|O" ["file_object"] [Option.none] =
      Except.ok [Option.none] := rfl
  refine ⟨hs, hO, ?_, ?_⟩
  · simp only [pyvmdk_check_file_signature, hs]
    split_ifs <;> rfl
  · simp only [pyvmdk_check_file_signature_file_object, hO, on_error, libbfio_handle_free]
    have hobject : object_of [Option.none].head? = Option.none := rfl
    rw [hobject]
    generalize env.pyvmdk_file_object_initialize Option.none = initialized
    split_ifs <;> rfl

/-- C5: the table `pyvmdk_module_methods` holds five callable entries, in the
order get_version, check_file_signature, check_file_signature_file_object,
open, open_file_object, with pairwise distinct names and a function pointer
each, followed by one all-`NULL` sentinel, which is the last element and the
only entry with a `NULL` name. -/
theorem module_methods_table :
    pyvmdk_module_methods.map (fun m => m.ml_name) =
      [some "get_version", some "check_file_signature",
       some "check_file_signature_file_object", some "open", some "open_file_object",
       Option.none] ∧
    pyvmdk_module_methods.map (fun m => m.ml_meth) =
      [some "pyvmdk_get_version", some "pyvmdk_check_file_signature",
       some "pyvmdk_check_file_signature_file_object", some "pyvmdk_handle_new_open",
       some "pyvmdk_handle_new_open_file_object", Option.none] ∧
    (pyvmdk_module_methods.map (fun m => m.ml_name)).Nodup ∧
    pyvmdk_module_methods.length = 6 ∧
    (∀ m ∈ pyvmdk_module_methods.take 5, m.ml_name ≠ Option.none ∧ m.ml_meth ≠ Option.none) ∧
    pyvmdk_module_methods.getLast? = some ⟨Option.none, Option.none, 0, Option.none⟩ ∧
    pyvmdk_module_methods.count ⟨Option.none, Option.none, 0, Option.none⟩ = 1 ∧
    (pyvmdk_module_methods.filter (fun m => m.ml_name.isSome && m.ml_meth.isSome)).length = 5 := by
  refine ⟨rfl, rfl, by decide, rfl, by decide, rfl, by decide, rfl⟩

/-- The narrow string length of a string that holds no end-of-string character
before a first one is the number of bytes before it. -/
theorem narrow_string_length_prefix (before after : List Nat) (hbefore : 0 ∉ before) :
    libcstring_narrow_string_length (before ++ 0 :: after) = before.length := by
  induction before with
  | nil => simp [libcstring_narrow_string_length]
  | cons c rest ih =>
    have hc : c ≠ 0 := fun h => hbefore (by simp [h])
    have hrest : 0 ∉ rest := fun h => hbefore (by simp [h])
    simp [libcstring_narrow_string_length, hc, ih hrest]

/-- C6: for a version string whose bytes `before` precede its first
end-of-string character (and whose length fits `Py_ssize_t`, as that of any
string in memory does), `pyvmdk_get_version` passes the narrow string length
of the string as the size, decodes exactly `before`, in which no
end-of-string character occurs, and does not depend on `self` and
`arguments`. -/
theorem get_version_decodes_before_nul (env : Env) (self arguments : Option PyObject)
    (before after : List Nat) (hbefore : 0 ∉ before)
    (hversion : env.libvmdk_get_version = before ++ 0 :: after)
    (hfits : before.length < 2 ^ 63) :
    libcstring_narrow_string_length env.libvmdk_get_version = before.length ∧
    to_Py_ssize_t (libcstring_narrow_string_length env.libvmdk_get_version) =
      (libcstring_narrow_string_length env.libvmdk_get_version : Int) ∧
    env.libvmdk_get_version.take
      (to_Py_ssize_t (libcstring_narrow_string_length env.libvmdk_get_version)).toNat = before ∧
    pyvmdk_get_version env self arguments = env.decode_utf8 before Option.none ∧
    (∀ self2 arguments2 : Option PyObject,
      pyvmdk_get_version env self2 arguments2 = pyvmdk_get_version env self arguments) := by
  have hlen : libcstring_narrow_string_length env.libvmdk_get_version = before.length := by
    rw [hversion]
    exact narrow_string_length_prefix before after hbefore
  have hmod : before.length % 2 ^ 64 = before.length :=
    Nat.mod_eq_of_lt (lt_trans hfits (by norm_num))
  have hcast : to_Py_ssize_t before.length = (before.length : Int) := by
    unfold to_Py_ssize_t
    rw [hmod, if_pos hfits]
  have htake : (before ++ 0 :: after).take before.length = before := by
    simp
  refine ⟨hlen, ?_, ?_, ?_, fun _ _ => rfl⟩
  · rw [hlen, hcast]
  · rw [hlen, hcast, hversion, Int.toNat_ofNat, htake]
  · simp only [pyvmdk_get_version, PyUnicode_DecodeUTF8]
    rw [hlen, hcast, hversion, Int.toNat_ofNat, htake]

/-- C6 at the version string "20140416". -/
theorem get_version_decodes_before_nul_witness :
    pyvmdk_get_version (example_env 0 1) Option.none Option.none =
      some (PyObject.str [50, 48, 49, 52, 48, 52, 49, 54]) :=
  (get_version_decodes_before_nul (example_env 0 1) Option.none Option.none
    [50, 48, 49, 52, 48, 52, 49, 54] [] (by decide) rfl (by norm_num)).2.2.2.1

end Pyvmdk

/-! ## Theorems about the descriptor-and-extent engine -/

namespace Vmdk

/-- A resolved extent keeps its specification. -/
theorem resolve_extent_spec (sources : Sources) (base_directory : List Char) (spec : ExtentSpec)
    (start_sector : Nat) (extent : OpenExtent)
    (h : resolve_extent sources base_directory spec start_sector = Except.ok extent) :
    extent.spec = spec := by
  unfold resolve_extent at h
  split at h
  · cases h
    rfl
  · split at h
    · cases h
    · split_ifs at h
      cases h
      rfl
  · split at h
    · cases h
    · split_ifs at h
      split at h
      · cases h
      · cases h
        rfl
  · cases h

/-- Resolution keeps the specifications of the manifest, in order. -/
theorem resolve_extents_specs (sources : Sources) (base_directory : List Char)
    (specs : List ExtentSpec) (start_sector : Nat) (extents : List OpenExtent)
    (h : resolve_extents sources base_directory specs start_sector = Except.ok extents) :
    extents.map (fun extent => extent.spec) = specs := by
  induction specs generalizing start_sector extents with
  | nil =>
    simp only [resolve_extents] at h
    cases h
    rfl
  | cons spec rest ih =>
    simp only [resolve_extents] at h
    rcases h1 : resolve_extent sources base_directory spec start_sector with e | extent
    · rw [h1] at h
      cases h
    · rw [h1] at h
      rcases h2 : resolve_extents sources base_directory rest (start_sector + spec.sector_count)
        with e | others
      · rw [h2] at h
        cases h
      · rw [h2] at h
        cases h
        simp [resolve_extent_spec sources base_directory spec start_sector extent h1,
          ih _ _ h2]

/-- The descriptor of the scenario parses to a FLAT extent of 2048 sectors at
offset 0 followed by a SPARSE extent of 4096 sectors at offset 2048. -/
theorem two_extent_manifest :
    parse two_extent_descriptor =
      Except.ok ⟨"1".data, "fffffffe".data, some AdapterType.IDE,
        [⟨AccessMode.read_write, 2048, ExtentType.FLAT, "disk-flat.vmdk".data, some 0⟩,
         ⟨AccessMode.read_write, 4096, ExtentType.SPARSE, "disk-sparse.vmdk".data, some 2048⟩]⟩ := by
  set_option maxRecDepth 100000 in
  rfl

/-- The media size of the opened scenario is 3145728. -/
theorem two_extent_media_size :
    (handle_open two_extent_descriptor "/images".data two_extent_sources).map get_media_size =
      Except.ok 3145728 := by
  set_option maxRecDepth 100000 in
  rfl

/-- C7: for a valid descriptor (it parses to a manifest and the manifest
resolves), opening it gives the handle composed of the resolved extents, and
the media size of that handle is the sum of the sector counts of the
manifest's extents times 512. For the descriptor with a FLAT extent of 2048
sectors followed by a SPARSE extent of 4096 sectors the media size is
6144 * 512 = 3145728. -/
theorem media_size_is_sum_of_sector_counts :
    (∀ (descriptor : String) (base_directory : List Char) (sources : Sources)
        (manifest : DiskManifest) (extents : List OpenExtent),
      parse descriptor = Except.ok manifest →
      resolve manifest base_directory sources = Except.ok extents →
      handle_open descriptor base_directory sources = Except.ok (compose manifest extents) ∧
      get_media_size (compose manifest extents) =
        (manifest.extents.map (fun spec => spec.sector_count)).sum * 512) ∧
    (handle_open two_extent_descriptor "/images".data two_extent_sources).map get_media_size =
      Except.ok (6144 * 512) ∧
    6144 * 512 = 3145728 := by
  refine ⟨?_, two_extent_media_size, rfl⟩
  intro descriptor base_directory sources manifest extents hparse hresolve
  constructor
  · simp only [handle_open, hparse, hresolve]
  · have hspecs := resolve_extents_specs sources base_directory manifest.extents 0 extents hresolve
    simp only [get_media_size, compose, sector_size]
    rw [← hspecs, List.map_map]
    rfl

/-- C7 at the scenario: its manifest resolves against `two_extent_sources`, and
the composed handle has media size (2048 + 4096) * 512. -/
theorem media_size_is_sum_of_sector_counts_witness :
    get_media_size
      (compose
        ⟨"1".data, "fffffffe".data, some AdapterType.IDE,
          [⟨AccessMode.read_write, 2048, ExtentType.FLAT, "disk-flat.vmdk".data, some 0⟩,
           ⟨AccessMode.read_write, 4096, ExtentType.SPARSE, "disk-sparse.vmdk".data, some 2048⟩]⟩
        [⟨⟨AccessMode.read_write, 2048, ExtentType.FLAT, "disk-flat.vmdk".data, some 0⟩,
          some ⟨4194304, fun _ length => List.replicate length 0⟩, none, 0⟩,
         ⟨⟨AccessMode.read_write, 4096, ExtentType.SPARSE, "disk-sparse.vmdk".data, some 2048⟩,
          some ⟨4194304, fun _ length => List.replicate length 0⟩,
          some ⟨128, 0, 512, false, []⟩, 2048⟩]) = (2048 + 4096) * 512 :=
  (media_size_is_sum_of_sector_counts.1 two_extent_descriptor "/images".data two_extent_sources
    _ _ two_extent_manifest (by set_option maxRecDepth 100000 in rfl)).2

end Vmdk
